import Mathlib

/-!
Verification of the subtitle retrieval-and-caching engine of the movie-bot
repository.  The Python sources under `subtitle/` and `database/` are embedded
shallowly: pure computations become Lean functions, the MongoDB collections
become lists of documents, the Redis client becomes an explicit fallible
interface, wall-clock instants become natural-number seconds, and network
responses become explicit status/payload arguments.  Each definition mirrors
one Python function and is named after it.
-/

/-! ## String helpers

Python string primitives used by the sources, re-implemented over `List Char`
so that every definition evaluates inside the kernel.  `lowerS` models
`str.lower` (ASCII range, which is all the sources compare), `isInfixS`
models the `in` substring test, `splitOnChar` models `str.split(sep)` for a
one-character separator, and `pyReplace` models `str.replace` (leftmost,
non-overlapping).  `pyIsSpace` is the ASCII part of the regex class `\s` and
of `str.strip`.
-/

def lowerS (s : String) : String :=
  String.mk (s.data.map Char.toLower)

def isInfixS (pat s : String) : Bool :=
  decide (pat.data <:+: s.data)

def splitOnChar (sep : Char) : List Char → List (List Char)
  | [] => [[]]
  | c :: rest =>
    match splitOnChar sep rest with
    | [] => [[]]
    | g :: gs => if c = sep then [] :: g :: gs else (c :: g) :: gs

def pyIsSpace (c : Char) : Bool :=
  c = ' ' || c = '\t' || c = '\n' || c = '\r' || c = '\x0b' || c = '\x0c'

/-- Replace every leftmost, non-overlapping occurrence of `p :: ps` by `rep`.
The first argument is fuel, always instantiated with the length of the list
being rewritten, which keeps the recursion structural and kernel-reducible. -/
def replaceFuel (p : Char) (ps rep : List Char) : ℕ → List Char → List Char
  | 0, l => l
  | _ + 1, [] => []
  | fuel + 1, c :: rest =>
    if (p :: ps).isPrefixOf (c :: rest) then
      rep ++ replaceFuel p ps rep fuel (rest.drop ps.length)
    else
      c :: replaceFuel p ps rep fuel rest

def pyReplace (s pat rep : String) : String :=
  match pat.data with
  | [] => s
  | p :: ps => String.mk (replaceFuel p ps rep.data s.data.length s.data)

def pstrip (s : String) : String :=
  String.mk (((s.data.dropWhile pyIsSpace).reverse.dropWhile pyIsSpace).reverse)

/-! ## `subtitle/api_manager.py` — quality scoring and result shaping -/

/-- One normalized provider search result, the dictionary built by
`OpenSubtitlesAPI._process_search_results` / `SubDBAPI.search_by_hash`. -/
structure SubResult where
  id : String
  language : String
  download_count : ℕ
  release : String
  filename : String
  url : String
  format : String
  provider : String
  quality_score : ℕ
  deriving DecidableEq

/-- The `attributes` object of one raw OpenSubtitles API item, after the
`.get(..., default)` defaulting done by `_process_search_results`. -/
structure OsAttributes where
  language : String
  download_count : ℕ
  release : String
  filename : String
  url : String
  deriving DecidableEq

/-- `OpenSubtitlesAPI._calculate_quality_score` (api_manager.py lines 175-188):
`download_count * 10`, plus `100` when the lower-cased release text contains
one of the bonus terms. -/
def calculate_quality_score (download_count : ℕ) (release : String) : ℕ :=
  download_count * 10 +
    (if ["bluray", "web-dl", "webrip"].any (fun term => isInfixS term (lowerS release)) then
      100
    else 0)

/-- One entry of the list built by `_process_search_results`. -/
def process_search_result (idv : String) (a : OsAttributes) : SubResult :=
  { id := idv
    language := a.language
    download_count := a.download_count
    release := a.release
    filename := a.filename
    url := a.url
    format := "srt"
    provider := "opensubtitles"
    quality_score := calculate_quality_score a.download_count a.release }

/-- `_process_search_results` (lines 151-173): shape each item, then sort by
quality score descending (Python `sorted` is a stable merge sort). -/
def process_search_results (items : List (String × OsAttributes)) : List SubResult :=
  (items.map (fun p => process_search_result p.1 p.2)).mergeSort
    (fun a b => decide (b.quality_score ≤ a.quality_score))

/-- `SubDBAPI.search_by_hash` (lines 259-286), with the HTTP response made
explicit: on status 200 the body is a comma-joined language list; membership
of the requested language yields a single fixed-score result. -/
def subdb_search_by_hash (responseStatus : ℕ) (responseText : String)
    (file_hash language : String) : List SubResult :=
  if responseStatus = 200 then
    if language.data ∈ splitOnChar ',' responseText.data then
      [{ id := file_hash
         language := language
         download_count := 0
         release := ""
         filename := ""
         url := ""
         format := "srt"
         provider := "subdb"
         quality_score := 50 }]
    else []
  else []

/-- The spec/claim wording for the release bonus: the lower-cased release text
contains one of bluray, web-dl, webrip.  Kept separate from the source-derived
`calculate_quality_score` so the two can be compared. -/
def claimed_release_match (release : String) : Bool :=
  ["bluray", "web-dl", "webrip"].any (fun term => isInfixS term (lowerS release))

/-! ## `subtitle/api_manager.py` — aggregation, dedup, retry -/

/-- The dedup key built by `SubtitleAPIManager._deduplicate_results` (line 416):
the f-string `f"{filename}_{language}"`. -/
def dedupKey (r : SubResult) : String :=
  r.filename ++ "_" ++ r.language

def dedupAux : List SubResult → List String → List SubResult
  | [], _ => []
  | r :: rest, seen =>
    if dedupKey r ∈ seen then dedupAux rest seen
    else r :: dedupAux rest (dedupKey r :: seen)

/-- `SubtitleAPIManager._deduplicate_results` (lines 409-421): keep the first
result for each key string. -/
def deduplicate_results (results : List SubResult) : List SubResult :=
  dedupAux results []

/-- `SubtitleAPIManager.search_subtitles` (lines 327-358) with the two provider
calls abstracted to their (successful) result lists: OpenSubtitles results are
collected first, SubDB is consulted only when a file hash is available and
fewer than 3 results were gathered, then duplicates are removed and the list
is sorted by quality score descending (stable). -/
def manager_search_subtitles (os_results subdb_results : List SubResult)
    (has_file_hash : Bool) : List SubResult :=
  let all_results :=
    os_results ++
      (if has_file_hash && decide (os_results.length < 3) then subdb_results else [])
  (deduplicate_results all_results).mergeSort
    (fun a b => decide (b.quality_score ≤ a.quality_score))

/-- One attempt of an operation passed to `_retry_operation`: the attempt
either returns a value or raises (modelled as `Except.error`). -/
structure RetryTrace (α : Type) where
  result : Except String α
  waits : List ℕ
  attemptsMade : ℕ

def retry_aux {α : Type} (delay : ℕ) (op : ℕ → Except String α) :
    ℕ → ℕ → RetryTrace α
  | _, 0 => ⟨Except.error "no attempts were made", [], 0⟩
  | i, r + 1 =>
    match op i with
    | Except.ok v => ⟨Except.ok v, [], 1⟩
    | Except.error e =>
      match r with
      | 0 => ⟨Except.error e, [], 1⟩
      | r' + 1 =>
        let rest := retry_aux delay op (i + 1) (r' + 1)
        ⟨rest.result, delay * 2 ^ i :: rest.waits, rest.attemptsMade + 1⟩

/-- `SubtitleAPIManager._retry_operation` (lines 423-439): run `op` for up to
`retryAttempts` attempts; after failed attempt `i` (0-based) and before the
next attempt, sleep `retryDelay * 2 ^ i` seconds; when every attempt fails,
re-raise the last failure.  The trace records the outcome, the sleeps
performed and the number of attempts made. -/
def retry_operation {α : Type} (retryAttempts retryDelay : ℕ)
    (op : ℕ → Except String α) : RetryTrace α :=
  retry_aux retryDelay op 0 retryAttempts

/-- `OpenSubtitlesAPI.search_subtitles` response handling (lines 131-149) with
the HTTP status and parsed payload explicit.  The second component is the
number of seconds slept inside the provider client: status 429 logs a warning,
sleeps 60 seconds, and returns an empty list; any other non-200 status logs an
error and returns an empty list; no branch raises to the caller. -/
def os_search_handle_response (status : ℕ)
    (payload : List (String × OsAttributes)) : List SubResult × ℕ :=
  if status = 200 then (process_search_results payload, 0)
  else if status = 429 then ([], 60)
  else ([], 0)

/-! ## `subtitle/api_manager.py` — `RateLimiter` (lines 16-36)

`acquire()` runs its whole body inside `async with self.lock`; the lock is a
non-reentrant `asyncio.Lock`.  Timestamps are seconds.  The body drops calls
older than the window, and when still at capacity it sleeps until the oldest
call would leave the window and then executes `return await self.acquire()`,
which begins by awaiting the very lock the caller is still holding — that
inner acquisition can never succeed, so the caller blocks forever.  The
embedding makes this explicit as the `deadlocked` outcome. -/

inductive AcquireOutcome where
  | granted (sleptSeconds : ℕ) (newCalls : List ℕ)
  | deadlocked
  deriving DecidableEq

/-- The list comprehension of line 27: keep timestamps newer than the window. -/
def rl_filter (window now : ℕ) (calls : List ℕ) : List ℕ :=
  calls.filter (fun t => decide (now - t < window))

/-- `RateLimiter.acquire` at instant `now` with recorded timestamps `calls`. -/
def rl_acquire (maxCalls window : ℕ) (calls : List ℕ) (now : ℕ) : AcquireOutcome :=
  let active := rl_filter window now calls
  if maxCalls ≤ active.length then
    match active.head? with
    | some oldest =>
      if 0 < window - (now - oldest) then
        AcquireOutcome.deadlocked
      else AcquireOutcome.granted 0 (active ++ [now])
    | none => AcquireOutcome.granted 0 (active ++ [now])
  else AcquireOutcome.granted 0 (active ++ [now])

/-- Run a sequence of `acquire()` calls at the given instants; `some calls`
when every call was granted without sleeping, `none` as soon as one call is
delayed or deadlocked. -/
def rl_run_all (maxCalls window : ℕ) (calls : List ℕ) : List ℕ → Option (List ℕ)
  | [] => some calls
  | t :: ts =>
    match rl_acquire maxCalls window calls t with
    | AcquireOutcome.granted 0 calls2 => rl_run_all maxCalls window calls2 ts
    | _ => none

/-! ## `subtitle/storage.py` — MongoDB document model

The `subtitles_metadata` collection becomes a list of `SubtitleDoc`, GridFS
becomes a list of `GridBlob`, and `datetime.utcnow()` becomes an explicit
`now` argument in seconds.  `replace_one(filter, doc, upsert=True)` under the
unique `(movie_id, language)` index replaces the first matching document or
appends. -/

/-- The subtitle-metadata input dictionary, after the `.get(key, default)`
defaulting that `store_subtitle_metadata` performs. -/
structure SubtitleData where
  provider : String
  id : String
  download_count : ℕ
  quality_score : ℕ
  format : String
  filename : String
  release : String
  file_size : ℕ
  encoding : String
  fps : Option ℕ
  cd_count : ℕ
  hearing_impaired : Bool
  machine_translated : Bool
  url : String
  deriving DecidableEq

/-- One document of the `subtitles_metadata` collection (storage.py lines
139-166).  `cache_size` is absent from a freshly written document and only set
by `cache_subtitle_content`, so it is an `Option`. -/
structure SubtitleDoc where
  movie_id : String
  language : String
  provider : String
  subtitle_id : String
  download_count : ℕ
  quality_score : ℕ
  format : String
  filename : String
  release : String
  file_size : ℕ
  encoding : String
  fps : Option ℕ
  cd_count : ℕ
  hearing_impaired : Bool
  machine_translated : Bool
  created_at : ℕ
  updated_at : ℕ
  expires_at : ℕ
  download_url : String
  cached_content : Bool
  gridfs_file_id : Option String
  cache_size : Option ℕ
  local_downloads : ℕ
  last_downloaded : Option ℕ
  verification_status : String
  sync_offset : Int
  deriving DecidableEq

/-- One GridFS file together with the metadata tags written by
`cache_subtitle_content`. -/
structure GridBlob where
  filename : String
  content : String
  compressed : Bool
  cached_at : ℕ
  deriving DecidableEq

/-- `SUBTITLE_SETTINGS["cache_duration"]` (subtitle_config.py): 24 hours. -/
def cache_duration : ℕ := 24 * 60 * 60

/-- The document literal of `store_subtitle_metadata` (lines 139-166). -/
def mkSubtitleDocument (movie_id language : String) (d : SubtitleData)
    (now : ℕ) : SubtitleDoc :=
  { movie_id := movie_id
    language := language
    provider := d.provider
    subtitle_id := d.id
    download_count := d.download_count
    quality_score := d.quality_score
    format := d.format
    filename := d.filename
    release := d.release
    file_size := d.file_size
    encoding := d.encoding
    fps := d.fps
    cd_count := d.cd_count
    hearing_impaired := d.hearing_impaired
    machine_translated := d.machine_translated
    created_at := now
    updated_at := now
    expires_at := now + cache_duration
    download_url := d.url
    cached_content := false
    gridfs_file_id := none
    cache_size := none
    local_downloads := 0
    last_downloaded := none
    verification_status := "pending"
    sync_offset := 0 }

/-- The filter `{"movie_id": movie_id, "language": language}`. -/
def keyMatch (movie_id language : String) (doc : SubtitleDoc) : Bool :=
  doc.movie_id == movie_id && doc.language == language

def replaceFirst (p : SubtitleDoc → Bool) (d : SubtitleDoc) :
    List SubtitleDoc → List SubtitleDoc
  | [] => []
  | x :: xs => if p x then d :: xs else x :: replaceFirst p d xs

/-- `collection.replace_one(filter, document, upsert=True)`: replace the first
matching document, or append when none matches. -/
def replace_one_upsert (p : SubtitleDoc → Bool) (d : SubtitleDoc)
    (docs : List SubtitleDoc) : List SubtitleDoc :=
  if docs.any p then replaceFirst p d docs else docs ++ [d]

def updateFirst (p : SubtitleDoc → Bool) (f : SubtitleDoc → SubtitleDoc) :
    List SubtitleDoc → List SubtitleDoc
  | [] => []
  | x :: xs => if p x then f x :: xs else x :: updateFirst p f xs

/-- The durable store: the metadata collection plus GridFS.  The
`movies_subtitles` aggregate collection and the analytics collections are not
touched by the operations under study and are left out. -/
structure StorageState where
  subs : List SubtitleDoc
  blobs : List GridBlob
  deriving DecidableEq

/-- `SubtitleStorage.store_subtitle_metadata` (lines 132-183): build a fresh
document — `created_at`, `updated_at` and `expires_at` all from the current
instant, `cached_content=False`, `gridfs_file_id=None`, `local_downloads=0`,
`verification_status="pending"` — and `replace_one` it by
`(movie_id, language)` with upsert.  GridFS is untouched. -/
def store_subtitle_metadata (s : StorageState) (movie_id language : String)
    (d : SubtitleData) (now : ℕ) : StorageState :=
  { s with
    subs := replace_one_upsert (keyMatch movie_id language)
      (mkSubtitleDocument movie_id language d now) s.subs }

/-- `SubtitleStorage.cache_subtitle_content` (lines 211-267): delete any prior
GridFS file named `{movie_id}_{language}.srt`, upload the new content, then
`update_one` the owning metadata document with `cached_content=True` and the
new file id.  The GridFS ObjectId is modelled by the filename. -/
def cache_subtitle_content (s : StorageState) (movie_id language content : String)
    (compress : Bool) (now : ℕ) : StorageState :=
  let fname := movie_id ++ "_" ++ language ++ ".srt"
  { subs := updateFirst (keyMatch movie_id language)
      (fun doc =>
        { doc with
          cached_content := true
          gridfs_file_id := some fname
          cache_size := some content.utf8ByteSize
          updated_at := now }) s.subs
    blobs := s.blobs.filter (fun b => b.filename != fname) ++
      [{ filename := fname, content := content, compressed := compress,
         cached_at := now }] }

/-! ## `subtitle/cache_manager.py` and the facade read path

The Redis client is modelled as an optional record of fallible operations:
`connect()` leaves `redis_client = None` on failure, and every call on a live
client may raise.  Each `CacheManager` method guards on the client and catches
every exception, exactly as the source does. -/

/-- The raw Redis client: `get` and `setex`, each able to raise. -/
structure RedisClient where
  get : String → Except String (Option String)
  setex : String → ℕ → String → Except String Unit

/-- `CACHE_CONFIG["max_cache_size"]` (subtitle_config.py): 100 MiB. -/
def max_cache_size : ℕ := 100 * 1024 * 1024

/-- `CACHE_CONFIG["content_ttl"]` (subtitle_config.py): 24 hours. -/
def content_ttl : ℕ := 86400

/-- `CacheManager._make_key` (cache_manager.py lines 44-46). -/
def cm_make_key (parts : List String) : String :=
  "subtitle:" ++ String.intercalate ":" parts

/-- `CacheManager.get_subtitle_content` (lines 93-110): `None` when the client
is absent, the stored value on success, and `None` when the call raises (the
exception is caught and logged). -/
def cm_get_subtitle_content (client : Option RedisClient)
    (movie_id language : String) : Option String :=
  match client with
  | none => none
  | some c =>
    match c.get (cm_make_key ["content", movie_id, language]) with
    | Except.ok v => v
    | Except.error _ => none

/-- `CacheManager.set_subtitle_content` (lines 112-137): `False` when the
client is absent or the UTF-8 payload exceeds the configured maximum or the
call raises; `True` on success. -/
def cm_set_subtitle_content (client : Option RedisClient)
    (movie_id language content : String) : Bool :=
  match client with
  | none => false
  | some c =>
    if max_cache_size < content.utf8ByteSize then false
    else
      match c.setex (cm_make_key ["content", movie_id, language]) content_ttl content with
      | Except.ok _ => true
      | Except.error _ => false

/-- The cache tier is unavailable: either `connect()` failed and left no
client, or every call on the live client raises. -/
def cacheUnavailable : Option RedisClient → Prop
  | none => True
  | some c =>
    (∀ k, ∃ e, c.get k = Except.error e) ∧
      (∀ k t v, ∃ e, c.setex k t v = Except.error e)

/-- `SubtitleDatabase.get_subtitle_content` (subtitle_db.py lines 121-145),
after initialization: try the cache tier, fall back to the GridFS-backed
store (abstracted to its result `storage_content`), write the hit back into
the cache discarding the boolean, and return.  The try/except of the facade
means the body never raises, which the `Except` result makes explicit. -/
def db_get_subtitle_content (client : Option RedisClient)
    (storage_content : String → String → Option String)
    (movie_id language : String) : Except String (Option String) :=
  match cm_get_subtitle_content client movie_id language with
  | some cached => Except.ok (some cached)
  | none =>
    match storage_content movie_id language with
    | some stored =>
      let _ := cm_set_subtitle_content client movie_id language stored
      Except.ok (some stored)
    | none => Except.ok none

/-! ## `subtitle/processor.py` — validation

The regular expressions of `_is_valid_subtitle_format` are implemented
directly over `List Char`.  `re.search` truthiness becomes an existence scan;
`re.findall` counting becomes a leftmost non-overlapping scan. -/

/-- Match `\d{2}:\d{2}:\d{2},\d{3}` (the SRT timestamp) at the head,
returning the remainder. -/
def matchSrtTimestamp : List Char → Option (List Char)
  | a :: b :: s1 :: c :: d :: s2 :: e :: f :: cm :: g :: h :: i :: rest =>
    if a.isDigit && b.isDigit && s1 = ':' && c.isDigit && d.isDigit && s2 = ':' &&
        e.isDigit && f.isDigit && cm = ',' && g.isDigit && h.isDigit && i.isDigit then
      some rest
    else none
  | _ => none

/-- Match the literal `-->` at the head, returning the remainder. -/
def matchArrow : List Char → Option (List Char)
  | '-' :: '-' :: '>' :: rest => some rest
  | _ => none

/-- Match the SRT block pattern
`\d+\s*\n\d{2}:\d{2}:\d{2},\d{3}\s*-->\s*\d{2}:\d{2}:\d{2},\d{3}` anchored at
the head of the list.  Because the character after the literal newline is a
digit (not whitespace) and the character before it after the index is
whitespace, greedy matching of `\d+` and of each `\s*` run is without loss:
the digit prefix must be maximal and each whitespace run must be the maximal
run, the first one ending with a newline. -/
def srtMatchAt (l : List Char) : Bool :=
  let (digits, r1) := l.span Char.isDigit
  if digits.isEmpty then false
  else
    let (ws1, r2) := r1.span (fun c => pyIsSpace c)
    if ws1.getLast? = some '\n' then
      match matchSrtTimestamp r2 with
      | none => false
      | some r3 =>
        match matchArrow ((r3.dropWhile (fun c => pyIsSpace c))) with
        | none => false
        | some r4 =>
          (matchSrtTimestamp (r4.dropWhile (fun c => pyIsSpace c))).isSome
    else false

/-- `re.search(srt_pattern, content)` truthiness: try the anchored match at
every start position. -/
def srtSearch : List Char → Bool
  | [] => false
  | c :: rest => srtMatchAt (c :: rest) || srtSearch rest

/-- `len(re.findall(bare-timestamp-regex, content))`: count leftmost,
non-overlapping bare `HH:MM:SS` matches. -/
def countTPFuel : ℕ → List Char → ℕ
  | 0, _ => 0
  | fuel + 1, l =>
    match l with
    | a :: b :: s1 :: c :: d :: s2 :: e :: f :: rest =>
      if a.isDigit && b.isDigit && s1 = ':' && c.isDigit && d.isDigit && s2 = ':' &&
          e.isDigit && f.isDigit then
        1 + countTPFuel fuel rest
      else countTPFuel fuel (b :: s1 :: c :: d :: s2 :: e :: f :: rest)
    | _ => 0

def countTimePattern (l : List Char) : ℕ :=
  countTPFuel l.length l

/-- `SubtitleProcessor._is_valid_subtitle_format` (processor.py lines 98-118):
SRT block pattern anywhere, or `WEBVTT` within the first 100 characters, or an
ASS/SSA section marker anywhere, or more than 2 bare `HH:MM:SS` timestamps. -/
def is_valid_subtitle_format (content : String) : Bool :=
  srtSearch content.data ||
    isInfixS "WEBVTT" (String.mk (content.data.take 100)) ||
    (isInfixS "[Script Info]" content || isInfixS "[V4+ Styles]" content) ||
    decide (2 < countTimePattern content.data)

/-- `SUBTITLE_SETTINGS["max_file_size"]` (subtitle_config.py): 5 MiB. -/
def max_file_size : ℕ := 5 * 1024 * 1024

/-- `ERROR_MESSAGES["file_too_large"]` (subtitle_config.py). -/
def error_file_too_large : String := "Subtitle file is too large to process."

/-- `SubtitleProcessor.validate_subtitle_file` (lines 75-96).  The raw bytes
are abstracted to their count `byteSize` and the text `decoded` they decode to
(`bytes.decode(encoding, errors="replace")` never raises, and a byte string is
empty exactly when its length is 0).  Order follows the source: oversized
first, then empty, then the format test. -/
def validate_subtitle_file (byteSize : ℕ) (decoded : String) : Bool × String :=
  if max_file_size < byteSize then (false, error_file_too_large)
  else if byteSize = 0 then (false, "Empty subtitle file")
  else if is_valid_subtitle_format decoded then (true, "Valid subtitle file")
  else (false, "Invalid subtitle format")

/-- The claim wording of the format test: the decoded text contains an SRT
timestamp-arrow pattern, a VTT header marker (anywhere), an ASS/SSA section
marker, or at least 3 bare timestamp occurrences.  Kept separate from the
source-derived `is_valid_subtitle_format` so the two can be compared. -/
def claimed_valid_format (content : String) : Bool :=
  srtSearch content.data ||
    isInfixS "WEBVTT" content ||
    (isInfixS "[Script Info]" content || isInfixS "[V4+ Styles]" content) ||
    decide (3 ≤ countTimePattern content.data)

/-! ## `subtitle/processor.py` — cleanup and conversion

`pysubs2` is an external library; parsing (`SSAFile.from_string`) and
serialization (`to_string`) are abstracted as fallible function parameters
over a structured cue list, while everything the module computes itself is
embedded concretely. -/

/-- One timed subtitle event: start/stop in milliseconds plus text. -/
structure Cue where
  start : Int
  stop : Int
  text : String
  deriving DecidableEq

/-- Collapse runs of 3 or more newlines to exactly two newlines, as the
newline-run `re.sub` does; `emitted` counts the newlines already seen in the
current run. -/
def collapseNl (emitted : ℕ) : List Char → List Char
  | [] => []
  | c :: rest =>
    if c = '\n' then
      (if emitted < 2 then ['\n'] else []) ++ collapseNl (emitted + 1) rest
    else c :: collapseNl 0 rest

/-- Index of the first occurrence of a character. -/
def firstIdxOf (target : Char) : List Char → Option ℕ
  | [] => none
  | c :: rest =>
    if c = target then some 0 else (firstIdxOf target rest).map (· + 1)

/-- `re.sub` of the delimited-group regex with the empty string: drop every leftmost
delimited group containing at least one character.  Fuel is always the length
of the list, keeping the recursion structural. -/
def stripDelimFuel (openC closeC : Char) : ℕ → List Char → List Char
  | 0, l => l
  | _ + 1, [] => []
  | fuel + 1, c :: rest =>
    if c = openC then
      match firstIdxOf closeC rest with
      | some k =>
        if 1 ≤ k then stripDelimFuel openC closeC fuel (rest.drop (k + 1))
        else c :: stripDelimFuel openC closeC fuel rest
      | none => c :: stripDelimFuel openC closeC fuel rest
    else c :: stripDelimFuel openC closeC fuel rest

/-- The mis-encoding fix-up table of `clean_subtitle_content` (lines 61-68),
in dictionary order.  The source dictionary literal repeats its fifth key, so
the surviving value for it is the second one (en dash). -/
def cleanup_replacements : List (String × String) :=
  [("\u00e2\u20ac\u2122", "\u0027"),
   ("\u00e2\u20ac\u0153", "\u0022"),
   ("\u00e2\u20ac", "\u0022"),
   ("\u00e2\u20ac\u00a6", "..."),
   ("\u00e2\u20ac\u0022", "\u2013")]

/-- `SubtitleProcessor.clean_subtitle_content` (lines 44-73): strip a leading
BOM, normalize line endings, collapse blank-line runs, drop HTML-like and
style-brace groups, apply the fix-up table in order, and strip surrounding
whitespace. -/
def clean_subtitle_content (content : String) : String :=
  let c1 :=
    match content.data with
    | '\ufeff' :: rest => String.mk rest
    | _ => content
  let c2 := pyReplace (pyReplace c1 "\r\n" "\n") "\r" "\n"
  let c3 := String.mk (collapseNl 0 c2.data)
  let c4 := String.mk (stripDelimFuel '<' '>' c3.data.length c3.data)
  let c5 := String.mk (stripDelimFuel '\x7b' '\x7d' c4.data.length c4.data)
  let c6 := cleanup_replacements.foldl (fun acc pr => pyReplace acc pr.1 pr.2) c5
  pstrip c6

/-- The target-format dispatch of `process_subtitle_file` (lines 143-151):
srt, vtt → webvtt, ass/ssa → ass, anything else → srt. -/
def process_target_style (target_format : String) : String :=
  if lowerS target_format = "srt" then "srt"
  else if lowerS target_format = "vtt" then "webvtt"
  else if lowerS target_format = "ass" || lowerS target_format = "ssa" then "ass"
  else "srt"

/-- The target-format dispatch of `convert_format` (lines 271-278): same as
above but without the ssa alias. -/
def convert_target_style (target_format : String) : String :=
  if lowerS target_format = "srt" then "srt"
  else if lowerS target_format = "vtt" then "webvtt"
  else if lowerS target_format = "ass" then "ass"
  else "srt"

/-- `SubtitleProcessor.process_subtitle_file` (lines 120-161): validate,
decode, clean, parse, reject an empty cue list, serialize to the target
format, clean the output.  `parse` and `render` stand for
`pysubs2.SSAFile.from_string` / `.to_string`; an `Except.error` is the
exception the try/except catches, turned into `(None, "Processing failed:
...")`. -/
def process_subtitle_file (parse : String → Except String (List Cue))
    (render : String → List Cue → Except String String)
    (byteSize : ℕ) (decoded : String) (target_format : String) :
    Option String × String :=
  let v := validate_subtitle_file byteSize decoded
  if v.1 = false then (none, v.2)
  else
    match parse (clean_subtitle_content decoded) with
    | Except.error e => (none, "Processing failed: " ++ e)
    | Except.ok subs =>
      if subs.length = 0 then (none, "No subtitle entries found")
      else
        match render (process_target_style target_format) subs with
        | Except.error e => (none, "Processing failed: " ++ e)
        | Except.ok out => (some (clean_subtitle_content out), "Success")

/-- `SubtitleProcessor.convert_format` (lines 256-282): parse (the
source-format dispatch is dead code — every branch calls `from_string`),
serialize to the target format; any caught exception yields bare `None`, with
the reason only logged. -/
def convert_format (parse : String → Except String (List Cue))
    (render : String → List Cue → Except String String)
    (content _source_format target_format : String) : Option String :=
  match parse content with
  | Except.error _ => none
  | Except.ok subs =>
    match render (convert_target_style target_format) subs with
    | Except.error _ => none
    | Except.ok out => some out

/-- `SubtitleProcessor.sync_subtitles` (lines 284-299): parse, shift every
event by the millisecond offset, serialize as SRT; any caught exception
yields bare `None`. -/
def sync_subtitles (parse : String → Except String (List Cue))
    (render : String → List Cue → Except String String)
    (content : String) (offset_ms : Int) : Option String :=
  match parse content with
  | Except.error _ => none
  | Except.ok subs =>
    match render "srt" (subs.map (fun c =>
        { c with start := c.start + offset_ms, stop := c.stop + offset_ms })) with
    | Except.error _ => none
    | Except.ok out => some out

/-- The sequential parse loop of `merge_subtitle_files`: the first raising
`from_string` aborts the whole merge. -/
def parse_all (parse : String → Except String (List Cue)) :
    List String → Except String (List (List Cue))
  | [] => Except.ok []
  | c :: rest =>
    match parse c with
    | Except.error e => Except.error e
    | Except.ok subs =>
      match parse_all parse rest with
      | Except.error e => Except.error e
      | Except.ok more => Except.ok (subs :: more)

/-- `SubtitleProcessor.merge_subtitle_files` (lines 301-317): parse each
input, concatenate the cue lists, stable-sort by (start, stop), serialize as
SRT; any caught exception yields bare `None`. -/
def merge_subtitle_files (parse : String → Except String (List Cue))
    (render : String → List Cue → Except String String)
    (contents : List String) : Option String :=
  match parse_all parse contents with
  | Except.error _ => none
  | Except.ok lists =>
    match render "srt" ((lists.flatten).mergeSort (fun a b =>
        decide (a.start < b.start ∨ (a.start = b.start ∧ a.stop ≤ b.stop)))) with
    | Except.error _ => none
    | Except.ok out => some out

/-! ## Concrete instances used by the counterexamples and witnesses -/

/-- A result whose filename contains an underscore: filename `a`, language
`b_c`. -/
def resultUnderscoreLang : SubResult :=
  { id := "1", language := "b_c", download_count := 7, release := "",
    filename := "a", url := "", format := "srt", provider := "opensubtitles",
    quality_score := 70 }

/-- A result with filename `a_b`, language `c` — a different
(filename, language) pair whose joined dedup key coincides with the one
above. -/
def resultUnderscoreName : SubResult :=
  { id := "2", language := "c", download_count := 3, release := "",
    filename := "a_b", url := "", format := "srt", provider := "subdb",
    quality_score := 30 }

/-- A sample subtitle-metadata input dictionary. -/
def sampleData : SubtitleData :=
  { provider := "opensubtitles", id := "42", download_count := 500,
    quality_score := 5100, format := "srt", filename := "Movie.BluRay.srt",
    release := "Movie.BluRay", file_size := 1000, encoding := "utf-8",
    fps := none, cd_count := 1, hearing_impaired := false,
    machine_translated := false, url := "http://example.org/42" }

/-- A decoded payload whose only `WEBVTT` marker sits after character 100:
one hundred `x` characters followed by `WEBVTT`. -/
def vttAfter100 : String :=
  String.mk (List.replicate 100 'x' ++ "WEBVTT".data)

/-- The single result `search_by_hash` builds for hash `abc`, language `en`. -/
def subdbResultEx : SubResult :=
  { id := "abc", language := "en", download_count := 0, release := "",
    filename := "", url := "", format := "srt", provider := "subdb",
    quality_score := 50 }

/-! ## Helper lemmas -/

lemma find?_replaceFirst (p : SubtitleDoc → Bool) (d : SubtitleDoc)
    (hd : p d = true) :
    ∀ st : List SubtitleDoc, st.any p = true → (replaceFirst p d st).find? p = some d := by
  intro st
  induction st with
  | nil => intro h; simp at h
  | cons x xs ih =>
    intro h
    by_cases hx : p x = true
    · simp [replaceFirst, hx, List.find?, hd]
    · simp only [List.any_cons, Bool.or_eq_true] at h
      rcases h with h | h
      · exact absurd h hx
      · have hx2 : p x = false := by simpa using hx
        simp only [replaceFirst, hx2, Bool.false_eq_true, if_false, List.find?_cons, hx2]
        exact ih h

lemma find?_replace_one_upsert (p : SubtitleDoc → Bool) (d : SubtitleDoc)
    (hd : p d = true) (st : List SubtitleDoc) :
    (replace_one_upsert p d st).find? p = some d := by
  unfold replace_one_upsert
  by_cases h : st.any p = true
  · rw [if_pos h]
    exact find?_replaceFirst p d hd st h
  · rw [if_neg h]
    rw [List.find?_append]
    have hst : st.find? p = none := by
      rw [List.find?_eq_none]
      intro x hx
      have := (List.any_eq_false.mp (Bool.eq_false_iff.mpr h)) x hx
      simpa using this
    simp [hst, List.find?, hd]

lemma countP_replaceFirst (p : SubtitleDoc → Bool) (d : SubtitleDoc)
    (hd : p d = true) :
    ∀ st : List SubtitleDoc, st.any p = true →
      (replaceFirst p d st).countP p = st.countP p := by
  intro st
  induction st with
  | nil => intro h; simp at h
  | cons x xs ih =>
    intro h
    by_cases hx : p x = true
    · simp [replaceFirst, hx, List.countP_cons, hd]
    · simp only [List.any_cons, Bool.or_eq_true] at h
      rcases h with h | h
      · exact absurd h hx
      · simp [replaceFirst, hx, List.countP_cons, ih h]

lemma countP_replace_one_upsert (p : SubtitleDoc → Bool) (d : SubtitleDoc)
    (hd : p d = true) (st : List SubtitleDoc) (h1 : st.countP p ≤ 1) :
    (replace_one_upsert p d st).countP p = 1 := by
  unfold replace_one_upsert
  by_cases h : st.any p = true
  · rw [if_pos h]
    rw [countP_replaceFirst p d hd st h]
    have hpos : 0 < st.countP p := by
      rw [List.countP_pos_iff]
      rcases List.any_eq_true.mp h with ⟨x, hx, hpx⟩
      exact ⟨x, hx, hpx⟩
    omega
  · rw [if_neg h]
    have h0 : st.countP p = 0 := by
      rw [List.countP_eq_zero]
      intro x hx
      have := (List.any_eq_false.mp (Bool.eq_false_iff.mpr h)) x hx
      simpa using this
    simp [List.countP_append, h0, List.countP_cons, hd]

lemma keyMatch_mkDocument (movie_id language : String) (d : SubtitleData) (now : ℕ) :
    keyMatch movie_id language (mkSubtitleDocument movie_id language d now) = true := by
  simp [keyMatch, mkSubtitleDocument]

lemma any_replaceFirst (p : SubtitleDoc → Bool) (d : SubtitleDoc) (hd : p d = true) :
    ∀ st : List SubtitleDoc, st.any p = true → (replaceFirst p d st).any p = true := by
  intro st
  induction st with
  | nil => intro h; simp at h
  | cons x xs ih =>
    intro h
    by_cases hx : p x = true
    · simp [replaceFirst, hx, hd]
    · simp only [List.any_cons, Bool.or_eq_true] at h
      rcases h with h | h
      · exact absurd h hx
      · simp [replaceFirst, hx, List.any_cons, ih h]

lemma replaceFirst_replaceFirst (p : SubtitleDoc → Bool) (d1 d2 : SubtitleDoc)
    (hd : p d1 = true) :
    ∀ st : List SubtitleDoc,
      replaceFirst p d2 (replaceFirst p d1 st) = replaceFirst p d2 st := by
  intro st
  induction st with
  | nil => rfl
  | cons x xs ih =>
    by_cases hx : p x = true
    · simp [replaceFirst, hx, hd]
    · simp [replaceFirst, hx, ih]

lemma replaceFirst_append_single (p : SubtitleDoc → Bool) (d1 d2 : SubtitleDoc)
    (hd : p d1 = true) :
    ∀ st : List SubtitleDoc, st.any p = false →
      replaceFirst p d2 (st ++ [d1]) = st ++ [d2] := by
  intro st
  induction st with
  | nil => intro _; simp [replaceFirst, hd]
  | cons x xs ih =>
    intro h
    simp only [List.any_cons, Bool.or_eq_false_iff] at h
    simp [replaceFirst, h.1, ih (by simp [h.2])]

/-- Running `replace_one_upsert` twice collapses to the second run alone: the
second upsert replaces whatever document the first one wrote. -/
lemma replace_one_upsert_twice (p : SubtitleDoc → Bool) (d1 d2 : SubtitleDoc)
    (h1 : p d1 = true) (st : List SubtitleDoc) :
    replace_one_upsert p d2 (replace_one_upsert p d1 st) =
      replace_one_upsert p d2 st := by
  unfold replace_one_upsert
  by_cases h : st.any p = true
  · rw [if_pos h, if_pos (any_replaceFirst p d1 h1 st h), if_pos h]
    exact replaceFirst_replaceFirst p d1 d2 h1 st
  · have hf : st.any p = false := by simpa using h
    rw [if_neg h, if_neg h]
    have hany : (st ++ [d1]).any p = true := by
      simp [List.any_append, h1]
    rw [if_pos hany]
    exact replaceFirst_append_single p d1 d2 h1 st hf

lemma dedupAux_countP (k : String) :
    ∀ (l : List SubResult) (seen : List String),
      (dedupAux l seen).countP (fun r => dedupKey r == k) =
        if k ∈ l.map dedupKey ∧ k ∉ seen then 1 else 0 := by
  intro l
  induction l with
  | nil => intro seen; simp [dedupAux]
  | cons r rest ih =>
    intro seen
    by_cases hmem : dedupKey r ∈ seen
    · rw [dedupAux, if_pos hmem, ih seen]
      have hiff : (k ∈ rest.map dedupKey ∧ k ∉ seen) ↔
          (k ∈ (r :: rest).map dedupKey ∧ k ∉ seen) := by
        simp only [List.map_cons, List.mem_cons]
        constructor
        · rintro ⟨h1, h2⟩
          exact ⟨Or.inr h1, h2⟩
        · rintro ⟨h1, h2⟩
          rcases h1 with h1 | h1
          · subst h1; exact absurd hmem h2
          · exact ⟨h1, h2⟩
      rw [if_congr hiff rfl rfl]
    · rw [dedupAux, if_neg hmem, List.countP_cons, ih (dedupKey r :: seen)]
      by_cases hk : k = dedupKey r
      · subst hk
        simp [hmem]
      · have hbeq : (dedupKey r == k) = false := by
          simp [Ne.symm hk]
        have hiff : (k ∈ rest.map dedupKey ∧ k ∉ (dedupKey r :: seen)) ↔
            (k ∈ (r :: rest).map dedupKey ∧ k ∉ seen) := by
          simp only [List.map_cons, List.mem_cons]
          constructor
          · rintro ⟨h1, h2⟩
            push_neg at h2
            exact ⟨Or.inr h1, h2.2⟩
          · rintro ⟨h1, h2⟩
            rcases h1 with h1 | h1
            · exact absurd h1 hk
            · refine ⟨h1, ?_⟩
              push_neg
              exact ⟨hk, h2⟩
        rw [if_congr hiff rfl rfl, hbeq]
        simp

lemma retry_aux_attempts_le {α : Type} (delay : ℕ) (op : ℕ → Except String α) :
    ∀ (r i : ℕ), (retry_aux delay op i r).attemptsMade ≤ r := by
  intro r
  induction r with
  | zero => intro i; simp [retry_aux]
  | succ r' ih =>
    intro i
    rw [retry_aux]
    cases hop : op i with
    | ok v => simp
    | error e =>
      cases r' with
      | zero => simp
      | succ s =>
        simp only
        have := ih (i + 1)
        omega

lemma retry_aux_all_fail {α : Type} (delay : ℕ) (op : ℕ → Except String α)
    (e : ℕ → String) :
    ∀ (r : ℕ), 1 ≤ r → ∀ i : ℕ,
      (∀ j, j < r → op (i + j) = Except.error (e (i + j))) →
      retry_aux delay op i r =
        ⟨Except.error (e (i + (r - 1))),
          (List.range (r - 1)).map (fun j => delay * 2 ^ (i + j)), r⟩ := by
  intro r
  induction r with
  | zero => intro h; omega
  | succ r' ih =>
    intro _ i hfail
    have h0 : op i = Except.error (e i) := by
      have := hfail 0 (by omega)
      simpa using this
    cases r' with
    | zero =>
      rw [retry_aux, h0]
      simp
    | succ s =>
      rw [retry_aux, h0]
      simp only
      have hrest := ih (by omega) (i + 1) (fun j hj => by
        have := hfail (j + 1) (by omega)
        rwa [show i + (j + 1) = i + 1 + j by omega] at this)
      rw [hrest]
      simp only [RetryTrace.mk.injEq, Nat.add_sub_cancel]
      refine ⟨by rw [show i + 1 + s = i + (s + 1) by omega], ?_, trivial⟩
      rw [List.range_succ_eq_map, List.map_cons, List.map_map]
      refine congrArg₂ _ (by rw [Nat.add_zero]) ?_
      refine List.map_congr_left ?_
      intro j _
      simp only [Function.comp_apply, Nat.succ_eq_add_one]
      rw [show i + (j + 1) = i + 1 + j by omega]

/-! ## Claim theorems -/

/-- C1: every token-auth provider search result scores
`download_count * 10 + (100 if the lower-cased release contains bluray,
web-dl or webrip else 0)`; a result with download count 500 and a BluRay
release scores 5100, one with download count 0 and no matching term scores 0;
and every hash-lookup provider result carries the fixed score 50. -/
theorem quality_score_spec :
    (∀ (dc : ℕ) (rel : String),
      calculate_quality_score dc rel =
        dc * 10 + (if claimed_release_match rel then 100 else 0)) ∧
    (∀ (idv : String) (a : OsAttributes),
      (process_search_result idv a).quality_score =
        calculate_quality_score a.download_count a.release) ∧
    calculate_quality_score 500 "Movie.BluRay.x264" = 5100 ∧
    calculate_quality_score 0 "Movie.CAM" = 0 ∧
    (∀ (status : ℕ) (text fh lang : String) (r : SubResult),
      r ∈ subdb_search_by_hash status text fh lang → r.quality_score = 50) := by
  refine ⟨fun dc rel => rfl, fun idv a => rfl, by decide, by decide, ?_⟩
  intro status text fh lang r hr
  unfold subdb_search_by_hash at hr
  split at hr
  · split at hr
    · simp only [List.mem_singleton] at hr
      subst hr
      rfl
    · simp at hr
  · simp at hr

/-- Witness for `quality_score_spec`: a concrete hash-lookup search on a
body listing the language yields the fixed-score result. -/
theorem quality_score_spec_witness :
    subdbResultEx ∈ subdb_search_by_hash 200 "en,es" "abc" "en" ∧
    subdbResultEx.quality_score = 50 := by
  constructor
  · decide
  · exact quality_score_spec.2.2.2.2 200 "en,es" "abc" "en" subdbResultEx (by decide)

/-- C4 (code bug evidence): with `max_calls = 2`, `window = 60`, the first
two `acquire()` calls inside one window are granted with no delay, but the
third call — the one the claim says is merely delayed until outside the
window and then granted entry — sleeps and then re-enters `acquire()`, which
re-awaits the non-reentrant `asyncio.Lock` the caller itself still holds:
the call never returns. -/
theorem rate_limiter_capacity_call_deadlocks :
    rl_run_all 2 60 [] [0, 1] = some [0, 1] ∧
    rl_acquire 2 60 [0, 1] 2 = AcquireOutcome.deadlocked := by
  exact ⟨by decide, by decide⟩

/-- C7: when the cache tier is unavailable — no Redis client, or every call
on it raising — `get_subtitle_content` returns exactly what the durable
store holds, and the facade returns normally (`Except.ok`), so no exception
escapes to its caller. -/
theorem cache_unavailable_content_from_store
    (client : Option RedisClient)
    (storage_content : String → String → Option String)
    (movie_id language : String)
    (h : cacheUnavailable client) :
    db_get_subtitle_content client storage_content movie_id language =
      Except.ok (storage_content movie_id language) := by
  have hget : cm_get_subtitle_content client movie_id language = none := by
    cases client with
    | none => rfl
    | some c =>
      obtain ⟨hg, _⟩ := h
      obtain ⟨e, he⟩ := hg (cm_make_key ["content", movie_id, language])
      simp [cm_get_subtitle_content, he]
  unfold db_get_subtitle_content
  rw [hget]
  cases hs : storage_content movie_id language with
  | none => simp
  | some stored => simp

/-- Witness for `cache_unavailable_content_from_store`: with no Redis client
at all, the facade returns the store content. -/
theorem cache_unavailable_content_from_store_witness :
    cacheUnavailable none ∧
    db_get_subtitle_content none (fun _ _ => some "hello") "m1" "en" =
      Except.ok (some "hello") := by
  exact ⟨trivial,
    cache_unavailable_content_from_store none (fun _ _ => some "hello") "m1" "en" trivial⟩

/-- C10: a metadata upsert always writes the reset values
`cached_content = false`, `gridfs_file_id = none`, `local_downloads = 0`,
`verification_status = "pending"` into the record for its
(movie, language) key — whatever was stored before — and leaves the blob
store untouched, so a refresh discards the cached-content marker and
counters even while the blob still exists. -/
theorem upsert_resets_cache_fields_and_preserves_blobs
    (s : StorageState) (movie_id language : String) (d : SubtitleData) (now : ℕ) :
    (store_subtitle_metadata s movie_id language d now).blobs = s.blobs ∧
    (store_subtitle_metadata s movie_id language d now).subs.find?
        (keyMatch movie_id language) =
      some (mkSubtitleDocument movie_id language d now) ∧
    (mkSubtitleDocument movie_id language d now).cached_content = false ∧
    (mkSubtitleDocument movie_id language d now).gridfs_file_id = none ∧
    (mkSubtitleDocument movie_id language d now).local_downloads = 0 ∧
    (mkSubtitleDocument movie_id language d now).verification_status = "pending" := by
  refine ⟨rfl, ?_, rfl, rfl, rfl, rfl⟩
  exact find?_replace_one_upsert _ _
    (keyMatch_mkDocument movie_id language d now) s.subs

/-- C2 counterexample: upserting the same data twice for `("m1", "en")`, at
instants 0 and then 1, leaves exactly one record for the pair — but its
`created_at` is 1, not the 0 the first call stored: the second call rewrote
the creation timestamp. -/
theorem upsert_twice_changes_created_at :
    (store_subtitle_metadata ⟨[], []⟩ "m1" "en" sampleData 0).subs.map
        SubtitleDoc.created_at = [0] ∧
    (store_subtitle_metadata
        (store_subtitle_metadata ⟨[], []⟩ "m1" "en" sampleData 0)
        "m1" "en" sampleData 1).subs.map SubtitleDoc.created_at = [1] ∧
    (store_subtitle_metadata
        (store_subtitle_metadata ⟨[], []⟩ "m1" "en" sampleData 0)
        "m1" "en" sampleData 1).subs.countP (keyMatch "m1" "en") = 1 ∧
    (1 : ℕ) ≠ 0 := by
  exact ⟨by decide, by decide, by decide, by decide⟩

/-- C2 amended: the upsert is idempotent only up to its timestamps.  For any
store, upserting identical data twice is literally the same as upserting once
at the second instant — the second call replaces the first call's document
wholesale; from any store holding at most one record for the key (the unique
index invariant), exactly one record for (movie_id, language) remains, it is
the document built at the second instant, and that document agrees with the
first call's document on every field except `created_at`, `updated_at` and
`expires_at`, all taken from the second call's clock — so `created_at` is
preserved only when both calls read the same clock value. -/
theorem upsert_twice_single_record_fresh_created_at
    (s : StorageState) (movie_id language : String) (d : SubtitleData)
    (t1 t2 : ℕ)
    (h1 : s.subs.countP (keyMatch movie_id language) ≤ 1) :
    store_subtitle_metadata (store_subtitle_metadata s movie_id language d t1)
        movie_id language d t2 =
      store_subtitle_metadata s movie_id language d t2 ∧
    (store_subtitle_metadata (store_subtitle_metadata s movie_id language d t1)
        movie_id language d t2).subs.countP (keyMatch movie_id language) = 1 ∧
    (store_subtitle_metadata (store_subtitle_metadata s movie_id language d t1)
        movie_id language d t2).subs.find? (keyMatch movie_id language) =
      some (mkSubtitleDocument movie_id language d t2) ∧
    mkSubtitleDocument movie_id language d t2 =
      { mkSubtitleDocument movie_id language d t1 with
        created_at := t2, updated_at := t2, expires_at := t2 + cache_duration } ∧
    (mkSubtitleDocument movie_id language d t2).created_at = t2 := by
  have hkey1 := keyMatch_mkDocument movie_id language d t1
  have hkey2 := keyMatch_mkDocument movie_id language d t2
  have hc1 : (store_subtitle_metadata s movie_id language d t1).subs.countP
      (keyMatch movie_id language) = 1 :=
    countP_replace_one_upsert _ _ hkey1 s.subs h1
  refine ⟨?_, ?_, ?_, rfl, rfl⟩
  · unfold store_subtitle_metadata
    dsimp only
    rw [replace_one_upsert_twice (keyMatch movie_id language)
      (mkSubtitleDocument movie_id language d t1)
      (mkSubtitleDocument movie_id language d t2) hkey1 s.subs]
  · exact countP_replace_one_upsert _ _ hkey2 _ (by omega)
  · exact find?_replace_one_upsert _ _ hkey2 _

/-- Witness for `upsert_twice_single_record_fresh_created_at` at an empty
store and instants 3 and 5. -/
theorem upsert_twice_single_record_fresh_created_at_witness :
    (⟨[], []⟩ : StorageState).subs.countP (keyMatch "m1" "en") ≤ 1 ∧
    store_subtitle_metadata (store_subtitle_metadata ⟨[], []⟩ "m1" "en" sampleData 3)
        "m1" "en" sampleData 5 =
      store_subtitle_metadata ⟨[], []⟩ "m1" "en" sampleData 5 ∧
    (store_subtitle_metadata (store_subtitle_metadata ⟨[], []⟩ "m1" "en" sampleData 3)
        "m1" "en" sampleData 5).subs.countP (keyMatch "m1" "en") = 1 ∧
    (mkSubtitleDocument "m1" "en" sampleData 5).created_at = 5 := by
  refine ⟨by decide, ?_, ?_, rfl⟩
  · exact (upsert_twice_single_record_fresh_created_at ⟨[], []⟩ "m1" "en" sampleData 3 5
      (by decide)).1
  · exact (upsert_twice_single_record_fresh_created_at ⟨[], []⟩ "m1" "en" sampleData 3 5
      (by decide)).2.1

/-- C3 counterexample: the dedup key is the underscore-joined string
`f"{filename}_{language}"`, so the pair (filename `a`, language `b_c`)
collides with (filename `a_b`, language `c`).  An input holding the second
pair twice — a genuine duplicate — comes back with zero results for that
pair, not exactly one: the first colliding result absorbed it. -/
theorem dedup_joined_key_collision_drops_pair :
    resultUnderscoreName.filename = "a_b" ∧
    resultUnderscoreName.language = "c" ∧
    dedupKey resultUnderscoreLang = dedupKey resultUnderscoreName ∧
    (manager_search_subtitles
        [resultUnderscoreLang, resultUnderscoreName, resultUnderscoreName] []
        false).countP
      (fun r => r.filename == "a_b" && r.language == "c") = 0 := by
  refine ⟨rfl, rfl, by decide, ?_⟩
  have h : deduplicate_results
      [resultUnderscoreLang, resultUnderscoreName, resultUnderscoreName] =
      [resultUnderscoreLang] := by decide
  unfold manager_search_subtitles
  simp only [h]
  rw [List.Perm.countP_eq _ (List.mergeSort_perm _ _)]
  decide

/-- C3 amended: `search_subtitles` deduplicates on the underscore-joined
string `filename ++ "_" ++ language`, keeping the first occurrence: every
joined key present in the concatenated provider results appears on exactly
one returned result, and consequently no two returned results share a
(filename, language) pair — but a pair can be conflated with a different
pair whose joined string coincides. -/
theorem dedup_unique_per_joined_key
    (os_results subdb_results : List SubResult) (has_file_hash : Bool)
    (k : String)
    (hk : k ∈ (os_results ++
        (if has_file_hash && decide (os_results.length < 3) then subdb_results
        else [])).map dedupKey) :
    (manager_search_subtitles os_results subdb_results has_file_hash).countP
      (fun r => dedupKey r == k) = 1 ∧
    (∀ f lang : String,
      (manager_search_subtitles os_results subdb_results has_file_hash).countP
        (fun r => r.filename == f && r.language == lang) ≤ 1) := by
  constructor
  · unfold manager_search_subtitles
    rw [List.Perm.countP_eq _ (List.mergeSort_perm _ _)]
    rw [deduplicate_results, dedupAux_countP]
    simp only [List.not_mem_nil, not_false_iff, and_true]
    rw [if_pos hk]
  · intro f lang
    have hmono : (manager_search_subtitles os_results subdb_results
        has_file_hash).countP (fun r => r.filename == f && r.language == lang) ≤
        (manager_search_subtitles os_results subdb_results has_file_hash).countP
          (fun r => dedupKey r == (f ++ "_" ++ lang)) := by
      apply List.countP_mono_left
      intro r _ hr
      simp only [Bool.and_eq_true, beq_iff_eq] at hr
      simp only [beq_iff_eq, dedupKey, hr.1, hr.2]
    have hkey : (manager_search_subtitles os_results subdb_results
        has_file_hash).countP (fun r => dedupKey r == (f ++ "_" ++ lang)) ≤ 1 := by
      unfold manager_search_subtitles
      rw [List.Perm.countP_eq _ (List.mergeSort_perm _ _)]
      rw [deduplicate_results, dedupAux_countP]
      split <;> (split <;> simp)
    omega

/-- Witness for `dedup_unique_per_joined_key`: two identical results from
one provider collapse to a single returned result for their joined key. -/
theorem dedup_unique_per_joined_key_witness :
    "a_b_c" ∈ (([resultUnderscoreName, resultUnderscoreName] : List SubResult) ++
      (if false && decide (([resultUnderscoreName, resultUnderscoreName] :
          List SubResult).length < 3) then [] else [])).map dedupKey ∧
    (manager_search_subtitles [resultUnderscoreName, resultUnderscoreName] []
        false).countP (fun r => dedupKey r == "a_b_c") = 1 := by
  refine ⟨by decide, ?_⟩
  exact (dedup_unique_per_joined_key [resultUnderscoreName, resultUnderscoreName]
    [] false "a_b_c" (by decide)).1

/-- C5 counterexample: a throttling (429) search response is waited out
inside the provider client itself — the client sleeps 60 seconds and then
returns an empty list — and, because the call returns normally instead of
raising, the manager-level retry helper performs exactly one attempt: the
throttle is never surfaced to it as a retryable condition. -/
theorem throttle_slept_inside_client_not_retried :
    (os_search_handle_response 429 []).2 ≠ 0 ∧
    (os_search_handle_response 429 []).2 = 60 ∧
    (retry_operation 3 1
        (fun _ => Except.ok (os_search_handle_response 429 []))).attemptsMade = 1 := by
  exact ⟨by decide, by decide, rfl⟩

/-- C5 amended: every non-200 search response is swallowed inside the
provider client: the call returns an empty list and raises nothing; a 429
additionally sleeps 60 seconds inside the client (any other status sleeps
0); and since the call returns normally, the AggregationManager retry
helper makes exactly one attempt and returns that empty outcome. -/
theorem non_success_response_empty_and_unretried
    (status : ℕ) (payload : List (String × OsAttributes)) (n delay : ℕ)
    (hs : status ≠ 200) (hn : 1 ≤ n) :
    (os_search_handle_response status payload).1 = [] ∧
    (os_search_handle_response status payload).2 =
      (if status = 429 then 60 else 0) ∧
    (retry_operation n delay
        (fun _ => Except.ok (os_search_handle_response status payload))).attemptsMade
      = 1 ∧
    (retry_operation n delay
        (fun _ => Except.ok (os_search_handle_response status payload))).result =
      Except.ok (os_search_handle_response status payload) := by
  have h1 : (os_search_handle_response status payload).1 = [] := by
    unfold os_search_handle_response
    rw [if_neg hs]
    split <;> rfl
  have h2 : (os_search_handle_response status payload).2 =
      (if status = 429 then 60 else 0) := by
    unfold os_search_handle_response
    rw [if_neg hs]
    split <;> rfl
  obtain ⟨m, rfl⟩ : ∃ m, n = m + 1 := ⟨n - 1, by omega⟩
  exact ⟨h1, h2, rfl, rfl⟩

/-- Witness for `non_success_response_empty_and_unretried` at status 404. -/
theorem non_success_response_empty_and_unretried_witness :
    (404 : ℕ) ≠ 200 ∧ (1 : ℕ) ≤ 3 ∧
    (os_search_handle_response 404 []).1 = [] ∧
    (retry_operation 3 1
        (fun _ => Except.ok (os_search_handle_response 404 []))).attemptsMade = 1 := by
  refine ⟨by decide, by decide, ?_, ?_⟩
  · exact (non_success_response_empty_and_unretried 404 [] 3 1 (by decide) (by decide)).1
  · exact (non_success_response_empty_and_unretried 404 [] 3 1 (by decide)
      (by decide)).2.2.1

/-- C6: `_retry_operation` makes at most `retryAttempts` attempts; when every
attempt raises, it makes exactly `retryAttempts` attempts, sleeps
`retryDelay * 2 ^ i` after each failed attempt `i` that has a successor
(the backoff schedule is exactly `[delay * 2 ^ 0, ..., delay * 2 ^ (n - 2)]`),
and re-raises the failure of the last attempt. -/
theorem retry_exponential_backoff_reraises_last
    (n delay : ℕ) (op : ℕ → Except String ℕ) (e : ℕ → String)
    (hn : 1 ≤ n) (hfail : ∀ i, i < n → op i = Except.error (e i)) :
    (retry_operation n delay op).result = Except.error (e (n - 1)) ∧
    (retry_operation n delay op).attemptsMade = n ∧
    (retry_operation n delay op).waits =
      (List.range (n - 1)).map (fun i => delay * 2 ^ i) ∧
    (∀ op2 : ℕ → Except String ℕ,
      (retry_operation n delay op2).attemptsMade ≤ n) := by
  have hall := retry_aux_all_fail delay op e n hn 0 (fun j hj => by
    simpa using hfail j hj)
  unfold retry_operation
  rw [hall]
  refine ⟨by simp, rfl, ?_, fun op2 => retry_aux_attempts_le delay op2 n 0⟩
  simp

/-- Witness for `retry_exponential_backoff_reraises_last`: two attempts,
base delay 1, an operation that always raises `boom`: the trace is two
attempts, one 1-second sleep, and the re-raised `boom`. -/
theorem retry_exponential_backoff_reraises_last_witness :
    (1 : ℕ) ≤ 2 ∧
    (∀ i, i < 2 → (fun _ => (Except.error "boom" : Except String ℕ)) i =
      Except.error ((fun _ => "boom") i)) ∧
    (retry_operation 2 1 (fun _ => (Except.error "boom" : Except String ℕ))).result =
      Except.error "boom" ∧
    (retry_operation 2 1 (fun _ => (Except.error "boom" : Except String ℕ))).waits =
      (List.range 1).map (fun i => 1 * 2 ^ i) := by
  refine ⟨by decide, fun i _ => rfl, ?_, ?_⟩
  · exact (retry_exponential_backoff_reraises_last 2 1
      (fun _ => Except.error "boom") (fun _ => "boom") (by decide)
      (fun i _ => rfl)).1
  · exact (retry_exponential_backoff_reraises_last 2 1
      (fun _ => Except.error "boom") (fun _ => "boom") (by decide)
      (fun i _ => rfl)).2.2.1

set_option maxRecDepth 8000 in
/-- C8 counterexample: a payload of one hundred `x` characters followed by
`WEBVTT` does contain a VTT header marker, so the claim predicate accepts
it, yet `validate_subtitle_file` rejects it — the source only looks for
`WEBVTT` within the first 100 characters. -/
theorem late_vtt_marker_rejected :
    0 < (106 : ℕ) ∧ (106 : ℕ) ≤ max_file_size ∧
    isInfixS "WEBVTT" vttAfter100 = true ∧
    claimed_valid_format vttAfter100 = true ∧
    validate_subtitle_file 106 vttAfter100 = (false, "Invalid subtitle format") := by
  exact ⟨by decide, by decide, by decide, by decide, by decide⟩

/-- C8 amended: validation fails on empty input and on input over the
configured maximum size; for every other input it succeeds exactly when the
decoded text contains the SRT timestamp-arrow block, or `WEBVTT` within its
first 100 characters, or an ASS/SSA section marker, or at least 3 bare
`HH:MM:SS` timestamps. -/
theorem validate_success_iff_format_markers (byteSize : ℕ) (decoded : String) :
    (byteSize = 0 → (validate_subtitle_file byteSize decoded).1 = false) ∧
    (max_file_size < byteSize → (validate_subtitle_file byteSize decoded).1 = false) ∧
    (0 < byteSize → byteSize ≤ max_file_size →
      ((validate_subtitle_file byteSize decoded).1 = true ↔
        (srtSearch decoded.data = true ∨
          isInfixS "WEBVTT" (String.mk (decoded.data.take 100)) = true ∨
          isInfixS "[Script Info]" decoded = true ∨
          isInfixS "[V4+ Styles]" decoded = true ∨
          3 ≤ countTimePattern decoded.data))) := by
  refine ⟨?_, ?_, ?_⟩
  · intro h0
    subst h0
    unfold validate_subtitle_file
    rw [if_neg (by unfold max_file_size; omega)]
    rfl
  · intro hbig
    unfold validate_subtitle_file
    rw [if_pos hbig]
  · intro hpos hle
    unfold validate_subtitle_file
    rw [if_neg (by omega), if_neg (by omega)]
    cases hv : is_valid_subtitle_format decoded with
    | true =>
      rw [if_pos rfl]
      simp only [true_iff]
      unfold is_valid_subtitle_format at hv
      simp only [Bool.or_eq_true, decide_eq_true_eq] at hv
      rcases hv with (((h | h) | (h | h)) | h)
      · exact Or.inl h
      · exact Or.inr (Or.inl h)
      · exact Or.inr (Or.inr (Or.inl h))
      · exact Or.inr (Or.inr (Or.inr (Or.inl h)))
      · exact Or.inr (Or.inr (Or.inr (Or.inr (by omega))))
    | false =>
      rw [if_neg (by simp)]
      simp only [Bool.false_eq_true, false_iff]
      unfold is_valid_subtitle_format at hv
      simp only [Bool.or_eq_false_iff, decide_eq_false_iff_not] at hv
      obtain ⟨⟨⟨hsrt, hvtt⟩, hass⟩, hcount⟩ := hv
      rintro (h | h | h | h | h)
      · rw [h] at hsrt; exact absurd hsrt (by simp)
      · rw [h] at hvtt; exact absurd hvtt (by simp)
      · rcases hass with ⟨h1, h2⟩
        rw [h] at h1; exact absurd h1 (by simp)
      · rcases hass with ⟨h1, h2⟩
        rw [h] at h2; exact absurd h2 (by simp)
      · omega

/-- Witness for `validate_success_iff_format_markers`: the six-byte payload
`WEBVTT` validates, matching the marker disjunction. -/
theorem validate_success_iff_format_markers_witness :
    0 < (6 : ℕ) ∧ (6 : ℕ) ≤ max_file_size ∧
    ((validate_subtitle_file 6 "WEBVTT").1 = true ↔
      (srtSearch ("WEBVTT" : String).data = true ∨
        isInfixS "WEBVTT" (String.mk (("WEBVTT" : String).data.take 100)) = true ∨
        isInfixS "[Script Info]" "WEBVTT" = true ∨
        isInfixS "[V4+ Styles]" "WEBVTT" = true ∨
        3 ≤ countTimePattern ("WEBVTT" : String).data)) := by
  refine ⟨by decide, by decide, ?_⟩
  exact (validate_success_iff_format_markers 6 "WEBVTT").2.2 (by decide) (by decide)

lemma string_append_ne_success (e : String) : "Processing failed: " ++ e ≠ "Success" := by
  intro h
  have hlen := congrArg String.length h
  rw [String.length_append] at hlen
  have h1 : ("Processing failed: " : String).length = 19 := by decide
  have h2 : ("Success" : String).length = 7 := by decide
  omega

lemma string_append_ne_empty (e : String) : "Processing failed: " ++ e ≠ "" := by
  intro h
  have hlen := congrArg String.length h
  rw [String.length_append] at hlen
  have h1 : ("Processing failed: " : String).length = 19 := by decide
  have h2 : ("" : String).length = 0 := by decide
  omega

lemma validate_fail_msg (b : ℕ) (s : String)
    (h : (validate_subtitle_file b s).1 = false) :
    (validate_subtitle_file b s).2 = error_file_too_large ∨
    (validate_subtitle_file b s).2 = "Empty subtitle file" ∨
    (validate_subtitle_file b s).2 = "Invalid subtitle format" := by
  unfold validate_subtitle_file at h ⊢
  split_ifs at h ⊢ <;> simp_all

lemma process_subtitle_file_cases
    (parse : String → Except String (List Cue))
    (render : String → List Cue → Except String String)
    (byteSize : ℕ) (decoded target_format : String) :
    (∃ out, process_subtitle_file parse render byteSize decoded target_format =
      (some out, "Success")) ∨
    (∃ msg, process_subtitle_file parse render byteSize decoded target_format =
      (none, msg) ∧ msg ≠ "Success" ∧ msg ≠ "") := by
  unfold process_subtitle_file
  dsimp only
  split
  · next hv =>
    right
    refine ⟨_, rfl, ?_, ?_⟩
    · rcases validate_fail_msg byteSize decoded hv with h | h | h <;> rw [h] <;> decide
    · rcases validate_fail_msg byteSize decoded hv with h | h | h <;> rw [h] <;> decide
  · next hv =>
    split
    · right
      exact ⟨_, rfl, string_append_ne_success _, string_append_ne_empty _⟩
    · split
      · right
        exact ⟨_, rfl, by decide, by decide⟩
      · split
        · right
          exact ⟨_, rfl, string_append_ne_success _, string_append_ne_empty _⟩
        · left
          exact ⟨_, rfl⟩

/-- C9 counterexample: `convert_format` returns the bare `None` on failure —
the output is the same for two different parse failure reasons, so no
human-readable reason accompanies (or is even recoverable from) the failed
result; the reason is only logged. -/
theorem convert_failure_carries_no_reason :
    ¬ ∃ recover : Option String → String, ∀ e : String,
      recover (convert_format (fun _ => Except.error e)
        (fun _ _ => Except.ok "converted") "x" "srt" "vtt") = e := by
  rintro ⟨recover, h⟩
  have h1 := h "reason A"
  have h2 := h "reason B"
  have e1 : convert_format (fun _ => Except.error "reason A")
      (fun _ _ => Except.ok "converted") "x" "srt" "vtt" = none := rfl
  have e2 : convert_format (fun _ => Except.error "reason B")
      (fun _ _ => Except.ok "converted") "x" "srt" "vtt" = none := rfl
  rw [e1] at h1
  rw [e2] at h2
  exact absurd (h1.symm.trans h2) (by decide)

/-- C9 amended: none of the four operations lets a parse or serialization
failure escape: `process` returns `(None, reason)` with a nonempty reason
distinct from `"Success"` on failure and `(non-null, "Success")` on success;
`convertFormat`, `shiftTiming` and `merge` return the bare `None` on any
parse/render failure (the reason is only logged) and a non-null result on
success. -/
theorem processor_totalized_failure_contract
    (parse : String → Except String (List Cue))
    (render : String → List Cue → Except String String)
    (byteSize : ℕ) (decoded target_format sf content : String)
    (offset_ms : Int) (contents : List String) :
    (((process_subtitle_file parse render byteSize decoded target_format).1 ≠ none) ↔
      (process_subtitle_file parse render byteSize decoded target_format).2 =
        "Success") ∧
    ((process_subtitle_file parse render byteSize decoded target_format).1 = none →
      (process_subtitle_file parse render byteSize decoded target_format).2 ≠ "") ∧
    ((∃ e, parse content = Except.error e) →
      convert_format parse render content sf target_format = none) ∧
    (∀ subs out, parse content = Except.ok subs →
      render (convert_target_style target_format) subs = Except.ok out →
      convert_format parse render content sf target_format = some out) ∧
    ((∃ e, parse content = Except.error e) →
      sync_subtitles parse render content offset_ms = none) ∧
    (∀ subs out, parse content = Except.ok subs →
      render "srt" (subs.map (fun c =>
        { c with start := c.start + offset_ms, stop := c.stop + offset_ms })) =
          Except.ok out →
      sync_subtitles parse render content offset_ms = some out) ∧
    ((∃ e, parse_all parse contents = Except.error e) →
      merge_subtitle_files parse render contents = none) ∧
    (∀ lists out, parse_all parse contents = Except.ok lists →
      render "srt" ((List.flatten lists).mergeSort (fun a b =>
        decide (a.start < b.start ∨ (a.start = b.start ∧ a.stop ≤ b.stop)))) =
          Except.ok out →
      merge_subtitle_files parse render contents = some out) := by
  refine ⟨?_, ?_, ?_, ?_, ?_, ?_, ?_, ?_⟩
  · rcases process_subtitle_file_cases parse render byteSize decoded target_format with
      ⟨out, heq⟩ | ⟨msg, heq, hne, _⟩
    · rw [heq]; simp
    · rw [heq]; simp [hne]
  · rcases process_subtitle_file_cases parse render byteSize decoded target_format with
      ⟨out, heq⟩ | ⟨msg, heq, _, hne0⟩
    · rw [heq]; simp
    · rw [heq]; simpa using hne0
  · rintro ⟨e, he⟩
    unfold convert_format
    rw [he]
  · intro subs out hp hr
    simp [convert_format, hp, hr]
  · rintro ⟨e, he⟩
    unfold sync_subtitles
    rw [he]
  · intro subs out hp hr
    simp [sync_subtitles, hp, hr]
  · rintro ⟨e, he⟩
    unfold merge_subtitle_files
    rw [he]
  · intro lists out hp hr
    unfold merge_subtitle_files
    rw [hp]
    simp only [hr]

/-- Witness for `processor_totalized_failure_contract`: a parser that raises
`boom` makes `convert_format` return `None`; a successful parse and render
make it return the rendered text. -/
theorem processor_totalized_failure_contract_witness :
    (∃ e, (fun _ : String => (Except.error "boom" : Except String (List Cue))) "x" =
      Except.error e) ∧
    convert_format (fun _ => Except.error "boom")
      (fun _ _ => Except.ok "converted") "x" "srt" "vtt" = none ∧
    convert_format (fun _ => Except.ok [⟨0, 1000, "Hello"⟩])
      (fun _ _ => Except.ok "converted") "x" "srt" "vtt" = some "converted" := by
  refine ⟨⟨"boom", rfl⟩, ?_, ?_⟩
  · exact (processor_totalized_failure_contract (fun _ => Except.error "boom")
      (fun _ _ => Except.ok "converted") 0 "" "vtt" "srt" "x" 0 []).2.2.1
      ⟨"boom", rfl⟩
  · exact (processor_totalized_failure_contract (fun _ => Except.ok [⟨0, 1000, "Hello"⟩])
      (fun _ _ => Except.ok "converted") 0 "" "vtt" "srt" "x" 0 []).2.2.2.1
      [⟨0, 1000, "Hello"⟩] "converted" rfl rfl
